import Mathlib

/-!
Verification development for `lumiwealth_tradier/base.py`.

The module under study is a thin HTTP client: `TradierApiBase.request`
runs a bounded retry loop around a transport call, validates the final
status code, decodes the JSON body (degrading to `{}` on decode failure)
and surfaces API-level errors embedded in the body.  We embed the module
shallowly: the transport is an oracle mapping the (1-indexed) attempt
number to either a raised transport exception or a received response;
the retry loop becomes a structurally recursive function on the
remaining-attempt budget, and every `raise` site becomes a constructor
of an error type.  A trace records the wire requests issued, the backoff
sleeps performed and the responses received, so that attempt counts and
sleep schedules can be stated.
-/

namespace LumiwealthTradier

/-- `TRADIER_LIVE_URL` from `base.py`. -/
def TRADIER_LIVE_URL : String := "https://api.tradier.com"

/-- `TRADIER_SANDBOX_URL` from `base.py`. -/
def TRADIER_SANDBOX_URL : String := "https://sandbox.tradier.com"

/-- Decoded JSON values, as returned by `response.json()`. -/
inductive Json where
  | null : Json
  | bool (b : Bool) : Json
  | num (n : Int) : Json
  | str (s : String) : Json
  | arr (elems : List Json) : Json
  | obj (fields : List (String × Json)) : Json
deriving Repr

mutual

def Json.beq : Json → Json → Bool
  | .null, .null => true
  | .bool a, .bool b => a == b
  | .num a, .num b => a == b
  | .str a, .str b => a == b
  | .arr a, .arr b => Json.beqList a b
  | .obj a, .obj b => Json.beqFields a b
  | _, _ => false

def Json.beqList : List Json → List Json → Bool
  | [], [] => true
  | a :: as, b :: bs => Json.beq a b && Json.beqList as bs
  | _, _ => false

def Json.beqFields : List (String × Json) → List (String × Json) → Bool
  | [], [] => true
  | (ka, va) :: as, (kb, vb) :: bs => ka == kb && Json.beq va vb && Json.beqFields as bs
  | _, _ => false

end

/-- Python truthiness of a decoded JSON value (`if ret_data`). -/
def Json.truthy : Json → Bool
  | .null => false
  | .bool b => b
  | .num n => n != 0
  | .str s => !s.isEmpty
  | .arr elems => !elems.isEmpty
  | .obj fields => !fields.isEmpty

/-- Python `k in x` on a decoded JSON value: key membership for a dict,
element membership for a list, substring test for a string; `none`
models the `TypeError` raised for the remaining types. -/
def pyIn (k : String) : Json → Option Bool
  | .obj fields => some (fields.any (fun p => p.1 == k))
  | .arr elems => some (elems.any (fun j => Json.beq j (.str k)))
  | .str s => some (k.isEmpty || (s.splitOn k).length > 1)
  | _ => none

/-- Python `x[k]` with a string key: dict lookup; `none` models the
`TypeError`/`KeyError` raised otherwise. -/
def pySubscript : Json → String → Option Json
  | .obj fields, k => fields.lookup k
  | _, _ => none

/-- A single quote character, for Python `repr` of strings. -/
def singleQuote : String := String.mk [Char.ofNat 39]

mutual

/-- Python `repr` of a decoded JSON value (approximate: no escaping). -/
def pyRepr : Json → String
  | .null => "None"
  | .bool true => "True"
  | .bool false => "False"
  | .num n => toString n
  | .str s => singleQuote ++ s ++ singleQuote
  | .arr elems => "[" ++ String.intercalate ", " (pyReprList elems) ++ "]"
  | .obj fields => "\x7b" ++ String.intercalate ", " (pyReprFields fields) ++ "\x7d"

def pyReprList : List Json → List String
  | [] => []
  | j :: js => pyRepr j :: pyReprList js

def pyReprFields : List (String × Json) → List String
  | [] => []
  | (k, v) :: fs => (singleQuote ++ k ++ singleQuote ++ ": " ++ pyRepr v) :: pyReprFields fs

end

/-- Python `str` of a decoded JSON value, as used by f-string interpolation. -/
def pyStr : Json → String
  | .str s => s
  | j => pyRepr j

/-- Python `" | ".join(x)`: succeeds when every element is a string,
`none` models the `TypeError` raised otherwise. -/
def joinErrorList (elems : List Json) : Option String :=
  (elems.mapM (fun j => match j with | Json.str s => some s | _ => none)).map
    (String.intercalate " | ")

/-- The `raise` sites of `TradierApiBase.request`, each constructor
carrying the values interpolated into the exception message:
`invalidMethod` is the `ValueError` for an unsupported method,
`requestFailed` the `TradierApiError` after exhausting retries,
`statusError` the `TradierApiError` for an unacceptable final status,
`apiError` the `TradierApiError` for an error embedded in the body,
`unboundLocal` the `UnboundLocalError` when `r` is read unassigned, and
`typeError` an uncaught `TypeError` from the body-error inspection. -/
inductive ReqError where
  | invalidMethod (method : String) : ReqError
  | requestFailed (method : String) (max_retries : Int) : ReqError
  | statusError (status : Nat) (text : String) : ReqError
  | apiError (msg : String) : ReqError
  | unboundLocal : ReqError
  | typeError : ReqError
deriving Repr, DecidableEq

/-- An HTTP response as seen by `request`: status code, body text, and
the outcome of `.json()` (`none` models a `JSONDecodeError`). -/
structure Response where
  status : Nat
  text : String
  json : Option Json
deriving Repr

/-- Outcome of one transport call: either the request library raised a
`requests.exceptions.RequestException`, or a response came back. -/
inductive AttemptResult where
  | exn : AttemptResult
  | resp (r : Response) : AttemptResult
deriving Repr

/-- A transport stub: what the HTTP library does on the n-th
(1-indexed) attempt. -/
def Transport : Type := Nat → AttemptResult

/-- The arguments forwarded to `requests.get/post/delete`: the method
used, the URL, the query params, the headers and (for post/delete) the
body data, exactly as passed at the call sites in the loop. -/
structure WireRequest where
  verb : String
  url : String
  params : List (String × String)
  headers : Option (List (String × String))
  data : Option (List (String × String))
deriving Repr, DecidableEq

/-- Observable activity of one `request` call: transport calls issued,
backoff sleeps performed (seconds), responses received, in order. -/
structure Trace where
  requests : List WireRequest
  sleeps : List ℚ
  responses : List Response

/-- The empty trace. -/
def emptyTrace : Trace := ⟨[], [], []⟩

/-- `TradierApiBase.__init__` state: account number, auth token and the
paper-trading flag, all fixed at construction. -/
structure TradierApiBase where
  ACCOUNT_NUMBER : String
  AUTH_TOKEN : String
  is_paper : Bool
deriving Repr, DecidableEq

/-- `self.REQUESTS_HEADERS` as built in `__init__`. -/
def TradierApiBase.REQUESTS_HEADERS (self : TradierApiBase) : List (String × String) :=
  [("Authorization", "Bearer " ++ self.AUTH_TOKEN), ("Accept", "application/json")]

/-- `TradierApiBase.base_url`. -/
def TradierApiBase.base_url (self : TradierApiBase) : String :=
  if self.is_paper then TRADIER_SANDBOX_URL else TRADIER_LIVE_URL

/-- `backoff_seconds = 1.5 * (2 ** attempt)` (line 103), exact in ℚ. -/
def backoff_seconds (attempt : Nat) : ℚ := 3 / 2 * 2 ^ attempt

/-- The arguments the loop body passes to the HTTP library for the
given method (lines 89-94): `requests.get` receives no `data`. -/
def mkWire (self : TradierApiBase) (endpoint : String) (params : List (String × String))
    (headers : Option (List (String × String))) (data : List (String × String))
    (method : String) : WireRequest :=
  { verb := method
    url := self.base_url ++ "/" ++ endpoint
    params := params
    headers := headers
    data := if method == "get" then none else some data }

/-- How the retry loop ended: `raised` for the in-loop
`TradierApiError` after exhausting retries, `exited` with the final
value of the local `r` (`none` when the loop body never ran, so `r`
was never assigned). -/
inductive LoopExit where
  | raised (e : ReqError) : LoopExit
  | exited (r : Option Response) : LoopExit

/-- The retry loop of `request` (lines 84-107).  `fuel` is the number
of remaining permitted attempts `max_retries - attempt`, so the loop
guard `attempt < max_retries and not successful` becomes the pattern
match on `fuel`; a 2xx status sets `successful` and exits at the next
guard check; otherwise the loop sleeps `backoff_seconds` when attempts
remain and raises after the last one.  A transport exception leaves
`r` at its previous value. -/
def requestLoop (t : Transport) (wire : WireRequest) (method : String) (max_retries : Int) :
    Nat → Nat → Option Response → Trace → LoopExit × Trace
  | 0, _, r, tr => (.exited r, tr)
  | fuel + 1, attempt, r, tr =>
    let attempt' := attempt + 1
    match t attempt' with
    | .exn =>
      let tr' : Trace := { tr with requests := tr.requests ++ [wire] }
      if fuel = 0 then
        (.raised (.requestFailed method max_retries), tr')
      else
        requestLoop t wire method max_retries fuel attempt' r
          { tr' with sleeps := tr'.sleeps ++ [backoff_seconds attempt'] }
    | .resp resp =>
      let tr' : Trace :=
        { tr with requests := tr.requests ++ [wire], responses := tr.responses ++ [resp] }
      if 200 ≤ resp.status ∧ resp.status < 300 then
        (.exited (some resp), tr')
      else if fuel = 0 then
        (.raised (.requestFailed method max_retries), tr')
      else
        requestLoop t wire method max_retries fuel attempt' (some resp)
          { tr' with sleeps := tr'.sleeps ++ [backoff_seconds attempt'] }

/-- Lines 121-126 of `request`: the check
`if ret_data and "errors" in ret_data and "error" in ret_data["errors"]`
with Python short-circuiting, then the `msg` computation (join for a
list, the value itself otherwise) and the `TradierApiError` raise. -/
def checkBodyErrors (ret_data : Json) : Except ReqError Unit :=
  if !ret_data.truthy then .ok ()
  else
    match pyIn "errors" ret_data with
    | none => .error .typeError
    | some false => .ok ()
    | some true =>
      match pySubscript ret_data "errors" with
      | none => .error .typeError
      | some errors =>
        match pyIn "error" errors with
        | none => .error .typeError
        | some false => .ok ()
        | some true =>
          match pySubscript errors "error" with
          | none => .error .typeError
          | some v =>
            match v with
            | .arr elems =>
              match joinErrorList elems with
              | none => .error .typeError
              | some msg => .error (.apiError msg)
            | _ => .error (.apiError (pyStr v))

/-- `TradierApiBase.request` (lines 63-128), with the transport stub
`t` standing for the `requests` library.  Returns the decoded body or
the raised error, paired with the observable trace.  `params` and
`data` default to empty mappings; an unsupported method raises before
any transport call; after the loop the final status must be 200, 201
or 502; the body is decoded with `{}` substituted on decode failure;
an `errors.error` field in the decoded body raises `TradierApiError`. -/
def TradierApiBase.request (self : TradierApiBase) (t : Transport) (endpoint : String)
    (params : Option (List (String × String)) := none)
    (headers : Option (List (String × String)) := none)
    (data : Option (List (String × String)) := none)
    (method : String := "get") (max_retries : Int := 3) :
    Except ReqError Json × Trace :=
  let params := params.getD []
  let data := data.getD []
  if method ∈ (["get", "post", "delete"] : List String) then
    let wire := mkWire self endpoint params headers data method
    match requestLoop t wire method max_retries max_retries.toNat 0 none emptyTrace with
    | (.raised e, tr) => (.error e, tr)
    | (.exited none, tr) => (.error .unboundLocal, tr)
    | (.exited (some r), tr) =>
      if r.status ≠ 200 ∧ r.status ≠ 201 ∧ r.status ≠ 502 then
        (.error (.statusError r.status r.text), tr)
      else
        let ret_data := match r.json with | some j => j | none => Json.obj []
        match checkBodyErrors ret_data with
        | .error e => (.error e, tr)
        | .ok _ => (.ok ret_data, tr)
  else
    (.error (.invalidMethod method), emptyTrace)

/-! ### Invariants of the retry loop -/

/-- `getLast?` of a snoc. -/
theorem getLast?_snoc {α : Type} (l : List α) (x : α) : (l ++ [x]).getLast? = some x := by
  rw [List.getLast?_append_cons]
  rfl

/-- If the retry loop was entered with a positive attempt budget and
exited normally with a response bound in `r`, then that response has a
2xx status (the only way `successful` is set) and is the last response
received. -/
theorem requestLoop_exited_some (t : Transport) (wire : WireRequest) (method : String)
    (max_retries : Int) :
    ∀ fuel attempt r0 tr r tr', 1 ≤ fuel →
      requestLoop t wire method max_retries fuel attempt r0 tr = (.exited (some r), tr') →
      (200 ≤ r.status ∧ r.status < 300) ∧ tr'.responses.getLast? = some r := by
  intro fuel
  induction fuel with
  | zero => intro _ _ _ _ _ h; omega
  | succ f ih =>
    intro attempt r0 tr r tr' _ heq
    rw [requestLoop] at heq
    split at heq
    · -- transport exception on this attempt
      split at heq
      · simp at heq
      · exact ih _ _ _ r tr' (by omega) heq
    · -- a response came back
      rename_i resp _
      split at heq
      · -- 2xx: the loop exits with this response
        rename_i hs
        injection heq with h1 h2
        injection h1 with h3
        injection h3 with h4
        subst h4
        subst h2
        exact ⟨hs, getLast?_snoc _ _⟩
      · split at heq
        · simp at heq
        · exact ih _ _ _ r tr' (by omega) heq

/-- Every wire request recorded by the retry loop is either one already
in the incoming trace or the single `wire` value built before the loop:
the loop re-issues the same arguments on every attempt. -/
theorem requestLoop_requests (t : Transport) (wire : WireRequest) (method : String)
    (max_retries : Int) :
    ∀ fuel attempt r0 tr ex tr',
      requestLoop t wire method max_retries fuel attempt r0 tr = (ex, tr') →
      ∀ w ∈ tr'.requests, w ∈ tr.requests ∨ w = wire := by
  intro fuel
  induction fuel with
  | zero =>
    intro attempt r0 tr ex tr' heq w hw
    rw [requestLoop] at heq
    injection heq with h1 h2
    subst h2
    exact Or.inl hw
  | succ f ih =>
    intro attempt r0 tr ex tr' heq w hw
    rw [requestLoop] at heq
    split at heq
    · -- transport exception on this attempt
      split at heq
      · injection heq with h1 h2
        subst h2
        simpa using (List.mem_append.mp hw).imp_right List.mem_singleton.mp
      · rcases ih _ _ _ _ _ heq w hw with h | h
        · simpa using (List.mem_append.mp h).imp_right List.mem_singleton.mp
        · exact Or.inr h
    · -- a response came back
      split at heq
      · injection heq with h1 h2
        subst h2
        simpa using (List.mem_append.mp hw).imp_right List.mem_singleton.mp
      · split at heq
        · injection heq with h1 h2
          subst h2
          simpa using (List.mem_append.mp hw).imp_right List.mem_singleton.mp
        · rcases ih _ _ _ _ _ heq w hw with h | h
          · simpa using (List.mem_append.mp h).imp_right List.mem_singleton.mp
          · exact Or.inr h

/-- Any normal (non-raising) return of `request` carries the trace of a
loop run whose last received response had status 200 or 201: the loop
exit demands a 2xx status and the post-loop check then excludes
everything but 200 and 201 (502 is not a 2xx, so its tolerance branch
is unreachable on this path). -/
theorem request_ok_last_response (self : TradierApiBase) (t : Transport) (endpoint : String)
    (params headers data : Option (List (String × String))) (method : String)
    (max_retries : Int) (m : Json) (tr : Trace)
    (h : self.request t endpoint params headers data method max_retries = (.ok m, tr)) :
    ∃ r, tr.responses.getLast? = some r ∧ (r.status = 200 ∨ r.status = 201) := by
  rw [TradierApiBase.request.eq_def] at h
  split at h
  · simp only [] at h
    split at h
    · simp at h
    · simp at h
    · rename_i r tr2 heq
      split at h
      · simp at h
      · rename_i hstat
        split at h
        · simp at h
        · injection h with h1 h2
          subst h2
          cases hfuel : max_retries.toNat with
          | zero =>
            rw [hfuel, requestLoop] at heq
            simp at heq
          | succ f =>
            rw [hfuel] at heq
            obtain ⟨⟨h200, h300⟩, hlast⟩ :=
              requestLoop_exited_some t _ method max_retries (f + 1) 0 none emptyTrace r tr2
                (by omega) heq
            exact ⟨r, hlast, by omega⟩
  · simp at h

/-- `request` forwards, on every transport call it issues, exactly the
caller-supplied `headers` argument: the instance default headers are
not merged in by `request` itself. -/
theorem request_forwards_caller_headers (self : TradierApiBase) (t : Transport)
    (endpoint : String) (params headers data : Option (List (String × String)))
    (method : String) (max_retries : Int) :
    ∀ w ∈ (self.request t endpoint params headers data method max_retries).snd.requests,
      w.headers = headers := by
  intro w hw
  rw [TradierApiBase.request.eq_def] at hw
  split at hw
  · simp only [] at hw
    split at hw
    · rename_i e tr2 heq
      replace hw : w ∈ tr2.requests := hw
      rcases requestLoop_requests t _ method max_retries _ _ _ _ _ _ heq w hw with h | h
      · simp [emptyTrace] at h
      · subst h; rfl
    · rename_i tr2 heq
      replace hw : w ∈ tr2.requests := hw
      rcases requestLoop_requests t _ method max_retries _ _ _ _ _ _ heq w hw with h | h
      · simp [emptyTrace] at h
      · subst h; rfl
    · rename_i r tr2 heq
      have hw2 : w ∈ tr2.requests := by
        split at hw
        · exact hw
        · split at hw
          · exact hw
          · exact hw
      rcases requestLoop_requests t _ method max_retries _ _ _ _ _ _ heq w hw2 with h | h
      · simp [emptyTrace] at h
      · subst h; rfl
  · simp [emptyTrace] at hw

/-! ### `date2str` and the strftime formats it uses -/

/-- The decimal digit character for `n < 10`. -/
def digitChar (n : Nat) : Char := Char.ofNat (48 + n)

/-- Decimal digits of `n`, most significant first; `fuel` bounds the
recursion depth (any `fuel ≥ n.succ` is enough). -/
def natDigitsAux (fuel : Nat) (n : Nat) : List Char :=
  match fuel with
  | 0 => []
  | fuel + 1 =>
    if n < 10 then [digitChar n]
    else natDigitsAux fuel (n / 10) ++ [digitChar (n % 10)]

/-- The decimal rendering of `n`, as `%d`-style formatting produces. -/
def natDigits (n : Nat) : String := String.mk (natDigitsAux (n + 1) n)

/-- Two-digit zero-padded rendering, as `%m`, `%d`, `%H`, `%M` produce. -/
def pad2 (n : Nat) : String := if n < 10 then "0" ++ natDigits n else natDigits n

/-- A `datetime.date`: year, month, day. -/
structure PyDate where
  year : Nat
  month : Nat
  day : Nat
deriving Repr, DecidableEq

/-- A `datetime.datetime`, to minute precision (the formats used by
`date2str` read no finer fields). -/
structure PyDatetime where
  year : Nat
  month : Nat
  day : Nat
  hour : Nat
  minute : Nat
deriving Repr, DecidableEq

/-- The argument of `date2str`: `Union[str, dt.datetime, dt.date]`. -/
inductive DateArg where
  | str (s : String) : DateArg
  | date (d : PyDate) : DateArg
  | datetime (d : PyDatetime) : DateArg

/-- `strftime("%Y-%m-%d")`: the year's decimal digits, then the
zero-padded month and day. -/
def strftimeYmd (year month day : Nat) : String :=
  natDigits year ++ "-" ++ pad2 month ++ "-" ++ pad2 day

/-- `strftime("%Y-%m-%d %H:%M")`. -/
def strftimeYmdHM (year month day hour minute : Nat) : String :=
  strftimeYmd year month day ++ " " ++ pad2 hour ++ ":" ++ pad2 minute

/-- `TradierApiBase.date2str` (lines 39-50): pick the format from
`include_min`, apply `strftime` to date and datetime values (a plain
`date` formats its absent time-of-day as 00:00, as `date.strftime`
does), and return string input unchanged. -/
def date2str (date : DateArg) (include_min : Bool := false) : String :=
  match date with
  | .date d =>
    if include_min then strftimeYmdHM d.year d.month d.day 0 0
    else strftimeYmd d.year d.month d.day
  | .datetime d =>
    if include_min then strftimeYmdHM d.year d.month d.day d.hour d.minute
    else strftimeYmd d.year d.month d.day
  | .str s => s

/-- `digitChar` of a digit is a digit character. -/
theorem digitChar_isDigit (n : Nat) (h : n < 10) : (digitChar n).isDigit := by
  interval_cases n <;> decide

/-- Everything `natDigitsAux` emits is a digit character. -/
theorem natDigitsAux_isDigit :
    ∀ fuel n, ∀ c ∈ natDigitsAux fuel n, c.isDigit := by
  intro fuel
  induction fuel with
  | zero => intro n c hc; simp [natDigitsAux] at hc
  | succ f ih =>
    intro n c hc
    rw [natDigitsAux] at hc
    by_cases h : n < 10
    · rw [if_pos h] at hc
      rw [List.mem_singleton.mp hc]
      exact digitChar_isDigit n h
    · rw [if_neg h] at hc
      rcases List.mem_append.mp hc with h2 | h2
      · exact ih _ c h2
      · rw [List.mem_singleton.mp h2]
        exact digitChar_isDigit _ (Nat.mod_lt n (by omega))

/-- `(String.mk l).length = l.length`. -/
theorem length_mk (l : List Char) : (String.mk l).length = l.length := rfl

/-- A single digit renders as its one digit character. -/
theorem natDigitsAux_small (f n : Nat) (h : n < 10) :
    natDigitsAux (f + 1) n = [digitChar n] := by
  rw [natDigitsAux, if_pos h]

/-- `natDigitsAux` writes exactly `k` characters for `n` with `k`
digits, provided the fuel covers `k`. -/
theorem natDigitsAux_length :
    ∀ k fuel n, 1 ≤ k → 10 ^ (k - 1) ≤ n → n < 10 ^ k → k ≤ fuel →
      (natDigitsAux fuel n).length = k := by
  intro k
  induction k with
  | zero => intro _ _ h; omega
  | succ k ih =>
    intro fuel n _ hlo hhi hfuel
    obtain ⟨f, rfl⟩ : ∃ f, fuel = f + 1 := ⟨fuel - 1, by omega⟩
    rw [natDigitsAux]
    rcases Nat.eq_or_lt_of_le (show 1 ≤ k + 1 by omega) with hk1 | hk2
    · have h10 : n < 10 := by
        have : 10 ^ (k + 1) = 10 ^ 1 := by rw [← hk1]
        omega
      rw [if_pos h10]
      simp
      omega
    · have hk : 1 ≤ k := by omega
      simp only [Nat.add_sub_cancel] at hlo
      have hge : 10 ≤ n := by
        have h1 : (10:Nat) ^ 1 ≤ 10 ^ k := Nat.pow_le_pow_right (by omega) (by omega)
        simp at h1
        omega
      rw [if_neg (by omega)]
      rw [List.length_append]
      have hdiv1 : 10 ^ (k - 1) ≤ n / 10 := by
        have : 10 ^ (k - 1) * 10 ≤ n := by
          have : 10 ^ (k - 1) * 10 = 10 ^ k := by
            rw [← Nat.pow_succ]
            congr 1
            omega
          omega
        omega
      have hdiv2 : n / 10 < 10 ^ k := by
        have : n < 10 ^ k * 10 := by
          have : 10 ^ k * 10 = 10 ^ (k + 1) := (Nat.pow_succ ..).symm
          omega
        omega
      rw [ih f (n / 10) hk hdiv1 hdiv2 (by omega)]
      simp

/-- The decimal rendering of a four-digit number has four characters,
all digits. -/
theorem natDigits_four (n : Nat) (h1 : 1000 ≤ n) (h2 : n ≤ 9999) :
    (natDigits n).length = 4 ∧ ∀ c ∈ (natDigits n).data, c.isDigit := by
  constructor
  · show (natDigitsAux (n + 1) n).length = 4
    exact natDigitsAux_length 4 (n + 1) n (by omega) (by norm_num; omega) (by norm_num; omega)
      (by omega)
  · intro c hc
    exact natDigitsAux_isDigit (n + 1) n c hc

/-- The zero-padded rendering of a two-digit field has two characters,
all digits. -/
theorem pad2_two (n : Nat) (h : n ≤ 99) :
    (pad2 n).length = 2 ∧ ∀ c ∈ (pad2 n).data, c.isDigit := by
  rw [pad2]
  by_cases h10 : n < 10
  · rw [if_pos h10]
    constructor
    · show ("0" ++ String.mk (natDigitsAux (n + 1) n)).length = 2
      rw [String.length_append, length_mk, natDigitsAux_small n n h10]
      rfl
    · intro c hc
      rcases List.mem_append.mp hc with h2 | h2
      · rw [List.mem_singleton.mp h2]
        decide
      · exact natDigitsAux_isDigit _ _ c h2
  · rw [if_neg h10]
    constructor
    · show (natDigitsAux (n + 1) n).length = 2
      exact natDigitsAux_length 2 (n + 1) n (by omega) (by norm_num; omega) (by norm_num; omega)
        (by omega)
    · intro c hc
      exact natDigitsAux_isDigit (n + 1) n c hc

/-! ### Concrete fixtures used by witnesses and counterexamples -/

/-- A sample client instance. -/
def self0 : TradierApiBase := ⟨"ACCT123", "tok", true⟩

/-- The decoded body `{"errors": {"error": "bad request"}}`. -/
def badRequestBody : Json :=
  Json.obj [("errors", Json.obj [("error", Json.str "bad request")])]

/-- A transport whose every attempt returns status 400 with the
`"bad request"` error body. -/
def tBadRequest : Transport := fun _ => .resp ⟨400, "bad request body", some badRequestBody⟩

/-- A transport whose every attempt returns status 502 with a body
that is not parseable as JSON. -/
def tBadGateway : Transport := fun _ => .resp ⟨502, "Bad Gateway", none⟩

/-- A transport whose every attempt raises a transport exception. -/
def tAlwaysExn : Transport := fun _ => .exn

/-- The decoded body `{"foo": "bar"}`. -/
def fooBody : Json := Json.obj [("foo", Json.str "bar")]

/-- A transport returning status 200 with body `{"foo": "bar"}` on
every attempt. -/
def tFoo : Transport := fun _ => .resp ⟨200, "foo body", some fooBody⟩

/-- The decoded body `{"errors": {"error": ["a", "b"]}}`. -/
def abBody : Json :=
  Json.obj [("errors", Json.obj [("error", Json.arr [Json.str "a", Json.str "b"])])]

/-- A transport returning status 200 with the two-element error body
on every attempt. -/
def tAB : Transport := fun _ => .resp ⟨200, "ab body", some abBody⟩

/-- The header set the specification claims is forwarded: the
instance's fixed default headers, with caller-supplied entries
overriding them by key.  This follows the specification's words, for
comparison against what `request` actually forwards. -/
def specMergedHeaders (self : TradierApiBase)
    (caller : Option (List (String × String))) : List (String × String) :=
  (self.REQUESTS_HEADERS.filter
      (fun p => !(caller.getD []).any (fun q => q.1 == p.1))) ++ caller.getD []

/-! ### Claims -/

/-- C4: for every method outside get/post/delete, `request` fails with
the invalid-method `ValueError` and issues zero transport calls,
whatever the endpoint, params, data, headers, transport and retry
budget. -/
theorem request_invalid_method (self : TradierApiBase) (t : Transport) (endpoint : String)
    (params headers data : Option (List (String × String))) (max_retries : Int)
    (method : String) (hm : method ∉ (["get", "post", "delete"] : List String)) :
    (self.request t endpoint params headers data method max_retries).fst
        = .error (.invalidMethod method)
      ∧ (self.request t endpoint params headers data method max_retries).snd.requests = [] := by
  rw [TradierApiBase.request.eq_def, if_neg hm]
  exact ⟨rfl, rfl⟩

/-- Witness for `request_invalid_method` at method `"put"`. -/
theorem request_invalid_method_witness :
    (self0.request tFoo "ep" none none none "put" 3).fst = .error (.invalidMethod "put")
      ∧ (self0.request tFoo "ep" none none none "put" 3).snd.requests = [] :=
  request_invalid_method self0 tFoo "ep" none none none 3 "put" (by decide)

/-- Amended C10: for every call with a method in get/post/delete and a
non-positive retry budget, the loop body never runs, `r` is never
assigned, and `request` fails with the `UnboundLocalError` from
reading `r.status_code` after the loop. -/
theorem request_nonpositive_retries_unbound (self : TradierApiBase) (t : Transport)
    (endpoint : String) (params headers data : Option (List (String × String)))
    (method : String) (max_retries : Int)
    (hm : method ∈ (["get", "post", "delete"] : List String)) (hmax : max_retries ≤ 0) :
    (self.request t endpoint params headers data method max_retries).fst
      = .error .unboundLocal := by
  have h0 : max_retries.toNat = 0 := by omega
  rw [TradierApiBase.request.eq_def, if_pos hm]
  simp only []
  rw [h0, requestLoop]

/-- Witness for `request_nonpositive_retries_unbound`: method `"get"`,
`max_retries = 0`. -/
theorem request_nonpositive_retries_unbound_witness :
    (self0.request tFoo "ep" none none none "get" 0).fst = .error .unboundLocal :=
  request_nonpositive_retries_unbound self0 tFoo "ep" none none none "get" 0
    (by decide) (by omega)

/-- Counterexample to C10 as stated: a call with `max_retries = 0` and
the unsupported method `"put"` fails with the invalid-method
`ValueError`, not with the unbound-local error, so "for every call
with `max_retries <= 0` ... fails with an unbound-local error rather
than ... InvalidArgument" is false without a valid-method
precondition. -/
theorem request_zero_retries_invalid_method_cex :
    (self0.request tFoo "ep" none none none "put" 0).fst = .error (.invalidMethod "put")
      ∧ (self0.request tFoo "ep" none none none "put" 0).fst ≠ .error .unboundLocal := by
  constructor
  · rfl
  · intro h
    have e : (self0.request tFoo "ep" none none none "put" 0).fst
      = Except.error (ReqError.invalidMethod "put") := rfl
    have h2 := e.symm.trans h
    simp at h2

/-- C2's failing input, evaluated: with every attempt answering status
502 with an unparseable body, `request` with `max_retries = 3` raises
the retry-exhaustion `TradierApiError` — it does not return `{}`.  The
502-tolerance branch after the loop is unreachable because 502 never
satisfies the loop's 2xx success test. -/
theorem request_502_unparseable_raises :
    (self0.request tBadGateway "ep" none none none "get" 3).fst
        = .error (.requestFailed "get" 3)
      ∧ (self0.request tBadGateway "ep" none none none "get" 3).fst ≠ .ok (Json.obj []) := by
  constructor
  · rfl
  · intro h
    have e : (self0.request tBadGateway "ep" none none none "get" 3).fst
      = Except.error (ReqError.requestFailed "get" 3) := rfl
    have h2 := e.symm.trans h
    simp at h2

/-- Counterexample to C1 as stated: with every attempt answering
status 400 with body `{"errors": {"error": "bad request"}}`, `request`
fails with the retry-exhaustion error, not with the embedded
`"bad request"` message: the loop raises before the body-error check
can run. -/
theorem request_400_not_apiError_cex :
    (self0.request tBadRequest "ep" none none none "get" 3).fst
        = .error (.requestFailed "get" 3)
      ∧ (self0.request tBadRequest "ep" none none none "get" 3).fst
        ≠ .error (.apiError "bad request") := by
  constructor
  · rfl
  · intro h
    have e : (self0.request tBadRequest "ep" none none none "get" 3).fst
      = Except.error (ReqError.requestFailed "get" 3) := rfl
    have h2 := e.symm.trans h
    simp at h2

/-- Amended C1: with every attempt answering status 400 (whatever the
body), `request` with `max_retries = 3` makes 3 attempts and fails
with the retry-exhaustion error; the body's embedded error message is
never consulted. -/
theorem request_400_every_attempt_requestFailed (self : TradierApiBase) (t : Transport)
    (endpoint : String) (params headers data : Option (List (String × String)))
    (method : String) (hm : method ∈ (["get", "post", "delete"] : List String))
    (r : Response) (hs : r.status = 400) (ht : ∀ n, t n = .resp r) :
    (self.request t endpoint params headers data method 3).fst
      = .error (.requestFailed method 3) := by
  have key : ∀ wire : WireRequest,
      requestLoop t wire method 3 ((3:Int)).toNat 0 none emptyTrace
        = (.raised (.requestFailed method 3),
           ⟨[wire, wire, wire], [backoff_seconds 1, backoff_seconds 2], [r, r, r]⟩) := by
    intro wire
    simp [requestLoop, ht, hs, emptyTrace]
  rw [TradierApiBase.request.eq_def, if_pos hm]
  simp only []
  rw [key]

/-- Witness for `request_400_every_attempt_requestFailed` on the
`"bad request"` transport. -/
theorem request_400_every_attempt_requestFailed_witness :
    (self0.request tBadRequest "ep" none none none "get" 3).fst
      = .error (.requestFailed "get" 3) :=
  request_400_every_attempt_requestFailed self0 tBadRequest "ep" none none none "get"
    (by decide) ⟨400, "bad request body", some badRequestBody⟩ rfl (fun _ => rfl)

/-- C3: with a transport that raises a transport exception on every
attempt, `request` with `max_retries = 3` issues exactly 3 transport
calls, sleeps exactly twice — `backoff_seconds 1 = 3` seconds after
the first attempt, `backoff_seconds 2 = 6` after the second — and
fails with the retry-exhaustion error; no mapping is returned. -/
theorem request_always_exn_three_attempts (self : TradierApiBase) (t : Transport)
    (endpoint : String) (params headers data : Option (List (String × String)))
    (method : String) (hm : method ∈ (["get", "post", "delete"] : List String))
    (ht : ∀ n, t n = .exn) :
    (self.request t endpoint params headers data method 3).fst
        = .error (.requestFailed method 3)
      ∧ (self.request t endpoint params headers data method 3).snd.requests.length = 3
      ∧ (self.request t endpoint params headers data method 3).snd.sleeps
          = [backoff_seconds 1, backoff_seconds 2]
      ∧ backoff_seconds 1 = 3 ∧ backoff_seconds 2 = 6 := by
  have key : ∀ wire : WireRequest,
      requestLoop t wire method 3 ((3:Int)).toNat 0 none emptyTrace
        = (.raised (.requestFailed method 3),
           ⟨[wire, wire, wire], [backoff_seconds 1, backoff_seconds 2], []⟩) := by
    intro wire
    simp [requestLoop, ht, emptyTrace]
  refine ⟨?_, ?_, ?_, by norm_num [backoff_seconds], by norm_num [backoff_seconds]⟩ <;>
  · rw [TradierApiBase.request.eq_def, if_pos hm]
    simp only []
    rw [key]
    try rfl

/-- Witness for `request_always_exn_three_attempts`. -/
theorem request_always_exn_three_attempts_witness :
    (self0.request tAlwaysExn "ep" none none none "get" 3).fst
        = .error (.requestFailed "get" 3)
      ∧ (self0.request tAlwaysExn "ep" none none none "get" 3).snd.requests.length = 3
      ∧ (self0.request tAlwaysExn "ep" none none none "get" 3).snd.sleeps
          = [backoff_seconds 1, backoff_seconds 2]
      ∧ backoff_seconds 1 = 3 ∧ backoff_seconds 2 = 6 :=
  request_always_exn_three_attempts self0 tAlwaysExn "ep" none none none "get"
    (by decide) (fun _ => rfl)

/-- C6: if the first attempt answers status 200 with decoded body
`{"foo": "bar"}`, `request` (any positive retry budget) returns that
mapping after exactly one transport call and no backoff sleep. -/
theorem request_200_foo_single_attempt (self : TradierApiBase) (t : Transport)
    (endpoint : String) (params headers data : Option (List (String × String)))
    (method : String) (max_retries : Int)
    (hm : method ∈ (["get", "post", "delete"] : List String)) (hmax : 1 ≤ max_retries)
    (r : Response) (hr : r.status = 200) (hj : r.json = some fooBody) (ht : t 1 = .resp r) :
    (self.request t endpoint params headers data method max_retries).fst = .ok fooBody
      ∧ (self.request t endpoint params headers data method max_retries).snd.requests.length
          = 1
      ∧ (self.request t endpoint params headers data method max_retries).snd.sleeps = [] := by
  obtain ⟨f, hf⟩ : ∃ f, max_retries.toNat = f + 1 := ⟨max_retries.toNat - 1, by omega⟩
  have h2xx : 200 ≤ r.status ∧ r.status < 300 := by omega
  have key : ∀ wire : WireRequest,
      requestLoop t wire method max_retries max_retries.toNat 0 none emptyTrace
        = (.exited (some r), ⟨[wire], [], [r]⟩) := by
    intro wire
    rw [hf, requestLoop]
    simp [ht, h2xx, emptyTrace]
  refine ⟨?_, ?_, ?_⟩ <;>
  · rw [TradierApiBase.request.eq_def, if_pos hm]
    simp only []
    rw [key]
    simp [hr, hj, checkBodyErrors, Json.truthy, pyIn, fooBody]

/-- Witness for `request_200_foo_single_attempt`. -/
theorem request_200_foo_single_attempt_witness :
    (self0.request tFoo "ep" none none none "get" 3).fst = .ok fooBody
      ∧ (self0.request tFoo "ep" none none none "get" 3).snd.requests.length = 1
      ∧ (self0.request tFoo "ep" none none none "get" 3).snd.sleeps = [] :=
  request_200_foo_single_attempt self0 tFoo "ep" none none none "get" 3
    (by decide) (by omega) ⟨200, "foo body", some fooBody⟩ rfl rfl rfl

/-- A successful `pySubscript` means the value was a dict containing
the key. -/
theorem pySubscript_obj (j : Json) (k : String) (v : Json)
    (h : pySubscript j k = some v) :
    ∃ fields, j = Json.obj fields ∧ fields.lookup k = some v := by
  cases j <;> simp [pySubscript] at h
  exact ⟨_, rfl, h⟩

/-- A dict with a successful lookup is truthy. -/
theorem truthy_of_lookup (fields : List (String × Json)) (k : String) (v : Json)
    (h : fields.lookup k = some v) : (Json.obj fields).truthy = true := by
  cases fields with
  | nil => simp [List.lookup] at h
  | cons p ps => simp [Json.truthy]

/-- C5: when the loop accepts a first-attempt response (status 200 or
201) whose decoded body carries an `errors.error` field, `request`
fails with the `TradierApiError` whose message is the field's string
value, or its elements joined with " | " when it is a list — the check
runs although the HTTP status was accepted. -/
theorem request_accepted_body_error_surfaced (self : TradierApiBase) (t : Transport)
    (endpoint : String) (params headers data : Option (List (String × String)))
    (method : String) (max_retries : Int)
    (hm : method ∈ (["get", "post", "delete"] : List String)) (hmax : 1 ≤ max_retries)
    (r : Response) (ht : t 1 = .resp r) (hs : r.status = 200 ∨ r.status = 201)
    (body : Json) (hj : r.json = some body)
    (errs : Json) (hin1 : pyIn "errors" body = some true)
    (hsub1 : pySubscript body "errors" = some errs)
    (hin2 : pyIn "error" errs = some true)
    (v : Json) (hsub2 : pySubscript errs "error" = some v)
    (msg : String)
    (hmsg : v = Json.str msg
      ∨ ∃ elems, v = Json.arr elems ∧ joinErrorList elems = some msg) :
    (self.request t endpoint params headers data method max_retries).fst
      = .error (.apiError msg) := by
  obtain ⟨f, hf⟩ : ∃ f, max_retries.toNat = f + 1 := ⟨max_retries.toNat - 1, by omega⟩
  have h2xx : 200 ≤ r.status ∧ r.status < 300 := by rcases hs with h | h <;> omega
  have key : ∀ wire : WireRequest,
      requestLoop t wire method max_retries max_retries.toNat 0 none emptyTrace
        = (.exited (some r), ⟨[wire], [], [r]⟩) := by
    intro wire
    rw [hf, requestLoop]
    simp [ht, h2xx, emptyTrace]
  obtain ⟨fields, hbody, hlook⟩ := pySubscript_obj body "errors" errs hsub1
  subst hbody
  have htruthy : (Json.obj fields).truthy = true :=
    truthy_of_lookup fields "errors" errs hlook
  rcases hmsg with hv | ⟨elems, hv, hjoin⟩
  · subst hv
    rcases hs with h | h <;>
    · rw [TradierApiBase.request.eq_def, if_pos hm]
      simp only []
      rw [key]
      simp [h, hj, checkBodyErrors, htruthy, hin1, hsub1, hin2, hsub2, pyStr]
  · subst hv
    rcases hs with h | h <;>
    · rw [TradierApiBase.request.eq_def, if_pos hm]
      simp only []
      rw [key]
      simp [h, hj, checkBodyErrors, htruthy, hin1, hsub1, hin2, hsub2, hjoin]

/-- Witness for `request_accepted_body_error_surfaced`: status 200
with body `{"errors": {"error": ["a", "b"]}}` yields message
`"a | b"`. -/
theorem request_accepted_body_error_surfaced_witness :
    (self0.request tAB "ep" none none none "get" 3).fst = .error (.apiError "a | b") :=
  request_accepted_body_error_surfaced self0 tAB "ep" none none none "get" 3
    (by decide) (by omega) ⟨200, "ab body", some abBody⟩ rfl (Or.inl rfl)
    abBody rfl (Json.obj [("error", Json.arr [Json.str "a", Json.str "b"])])
    rfl rfl rfl (Json.arr [Json.str "a", Json.str "b"]) rfl "a | b"
    (Or.inr ⟨[Json.str "a", Json.str "b"], rfl, rfl⟩)

/-- Counterexample to C7 as stated: calling with no caller headers
forwards `none` to the transport — not the instance's default header
set, which the claimed merge would have to contain (it has the
`Authorization` entry). -/
theorem request_headers_not_merged_cex :
    (self0.request tFoo "ep" none none none "get" 3).snd.requests.map WireRequest.headers
        = [none]
      ∧ ("Authorization", "Bearer tok") ∈ specMergedHeaders self0 none
      ∧ (none : Option (List (String × String))) ≠ some (specMergedHeaders self0 none) := by
  refine ⟨rfl, by decide, by simp⟩

/-- Witness for `request_forwards_caller_headers`: a call with caller
headers `[("X-Custom", "1")]` issues one wire request carrying exactly
those headers. -/
theorem request_forwards_caller_headers_witness :
    (mkWire self0 "ep" [] (some [("X-Custom", "1")]) [] "get").headers
      = some [("X-Custom", "1")] := by
  apply request_forwards_caller_headers self0 tFoo "ep" none (some [("X-Custom", "1")]) none
    "get" 3
  have e : (self0.request tFoo "ep" none (some [("X-Custom", "1")]) none "get" 3).snd.requests
      = [mkWire self0 "ep" [] (some [("X-Custom", "1")]) [] "get"] := rfl
  rw [e]
  exact List.mem_singleton.mpr rfl

/-- C8: with a positive retry budget, whenever `request` returns a
mapping without raising, the last received response's status is
exactly 200 or 201: leaving the loop without raising needs a 2xx
status, and the post-loop check then rules out everything but 200 and
201, so the 502-tolerance branch never fires on a non-2xx final
response. -/
theorem request_ok_implies_2xx_status (self : TradierApiBase) (t : Transport)
    (endpoint : String) (params headers data : Option (List (String × String)))
    (method : String) (max_retries : Int) (hmax : 1 ≤ max_retries) (m : Json)
    (h : (self.request t endpoint params headers data method max_retries).fst = .ok m) :
    ∃ r, (self.request t endpoint params headers data method
          max_retries).snd.responses.getLast? = some r
        ∧ (r.status = 200 ∨ r.status = 201) := by
  rcases hreq : self.request t endpoint params headers data method max_retries with ⟨res, tr⟩
  rw [hreq] at h
  have h2 : res = .ok m := h
  subst h2
  exact request_ok_last_response self t endpoint params headers data method max_retries m tr
    hreq

/-- Witness for `request_ok_implies_2xx_status` on the
`{"foo": "bar"}` transport. -/
theorem request_ok_implies_2xx_status_witness :
    ∃ r, (self0.request tFoo "ep" none none none "get" 3).snd.responses.getLast? = some r
        ∧ (r.status = 200 ∨ r.status = 201) :=
  request_ok_implies_2xx_status self0 tFoo "ep" none none none "get" 3 (by omega) fooBody rfl

/-- C9: for date and datetime values, `date2str` yields a string of
shape `YYYY-MM-DD` (four year digits, two-digit zero-padded month and
day), with `include_min` it appends ` HH:MM`, and string input is
returned unchanged whatever `include_min` is. -/
theorem date2str_formats (y m d hh mi : Nat)
    (hy1 : 1000 ≤ y) (hy2 : y ≤ 9999) (hm : m ≤ 12) (hd : d ≤ 31)
    (hh1 : hh ≤ 23) (hmi : mi ≤ 59) :
    (∃ Y M D : String, Y.length = 4 ∧ M.length = 2 ∧ D.length = 2
        ∧ (∀ c ∈ Y.data, c.isDigit) ∧ (∀ c ∈ M.data, c.isDigit) ∧ (∀ c ∈ D.data, c.isDigit)
        ∧ date2str (.date ⟨y, m, d⟩) false = Y ++ "-" ++ M ++ "-" ++ D
        ∧ date2str (.datetime ⟨y, m, d, hh, mi⟩) false = Y ++ "-" ++ M ++ "-" ++ D)
      ∧ (∃ Y M D H MM : String, Y.length = 4 ∧ M.length = 2 ∧ D.length = 2 ∧ H.length = 2
          ∧ MM.length = 2
          ∧ date2str (.datetime ⟨y, m, d, hh, mi⟩) true
              = Y ++ "-" ++ M ++ "-" ++ D ++ " " ++ H ++ ":" ++ MM)
      ∧ (∀ s b, date2str (.str s) b = s) := by
  refine ⟨⟨natDigits y, pad2 m, pad2 d, (natDigits_four y hy1 hy2).1,
      (pad2_two m (by omega)).1, (pad2_two d (by omega)).1, (natDigits_four y hy1 hy2).2,
      (pad2_two m (by omega)).2, (pad2_two d (by omega)).2, rfl, rfl⟩,
    ⟨natDigits y, pad2 m, pad2 d, pad2 hh, pad2 mi, (natDigits_four y hy1 hy2).1,
      (pad2_two m (by omega)).1, (pad2_two d (by omega)).1, (pad2_two hh (by omega)).1,
      (pad2_two mi (by omega)).1, rfl⟩,
    fun _ _ => rfl⟩

/-- Witness for `date2str_formats` at 2024-06-05 07:40. -/
theorem date2str_formats_witness :
    (∃ Y M D : String, Y.length = 4 ∧ M.length = 2 ∧ D.length = 2
        ∧ (∀ c ∈ Y.data, c.isDigit) ∧ (∀ c ∈ M.data, c.isDigit) ∧ (∀ c ∈ D.data, c.isDigit)
        ∧ date2str (.date ⟨2024, 6, 5⟩) false = Y ++ "-" ++ M ++ "-" ++ D
        ∧ date2str (.datetime ⟨2024, 6, 5, 7, 40⟩) false = Y ++ "-" ++ M ++ "-" ++ D)
      ∧ (∃ Y M D H MM : String, Y.length = 4 ∧ M.length = 2 ∧ D.length = 2 ∧ H.length = 2
          ∧ MM.length = 2
          ∧ date2str (.datetime ⟨2024, 6, 5, 7, 40⟩) true
              = Y ++ "-" ++ M ++ "-" ++ D ++ " " ++ H ++ ":" ++ MM)
      ∧ (∀ s b, date2str (.str s) b = s) :=
  date2str_formats 2024 6 5 7 40 (by norm_num) (by norm_num) (by norm_num) (by norm_num)
    (by norm_num) (by norm_num)

end LumiwealthTradier
